import Mathlib

/-!
Shallow embedding of `src/desarrollo.py`, a small in-memory requirements
tracker, together with theorems checking the specification's claims.

Modelling conventions:
* Python `datetime` timestamps are modelled as natural numbers; every
  operation that reads the clock (`datetime.now()`) takes the current time
  as an explicit `now : Nat` argument.
* Python's float division in the completion percentage is modelled with
  exact rationals (`ℚ`).
* The mutating methods (`verify`, `add_requirement`) are modelled as
  functions returning the updated record.
-/

namespace Desarrollo

/-- Enumeration of requirement categories (class `RequirementType`). -/
inductive RequirementType where
  | FUNCTIONAL
  | NON_FUNCTIONAL
  | BUSINESS
  | TECHNICAL
  | USER
deriving DecidableEq

/-- Enumeration of verification states (class `VerificationStatus`). -/
inductive VerificationStatus where
  | PENDING
  | VERIFIED
  | REJECTED
deriving DecidableEq

/-- The `Requirement` dataclass. Timestamps are `Nat`.  The fields that have
defaults in the source keep them here; `created_date` and `last_modified`
have no default here because in the source their default expression
`datetime.now()` is evaluated once at class-definition time (see
`Requirement.mk_default`). -/
structure Requirement where
  id : String
  title : String
  description : String
  type : RequirementType
  priority : Int
  is_specific : Bool := false
  is_measurable : Bool := false
  is_achievable : Bool := false
  is_relevant : Bool := false
  is_time_bound : Bool := false
  created_date : Nat
  last_modified : Nat
  verification_status : VerificationStatus := VerificationStatus.PENDING
  verification_notes : String := ""
deriving DecidableEq

/-- Constructing a `Requirement` through the dataclass defaults.  In the
source the default value of `created_date` and `last_modified` is the
expression `datetime.now()` appearing in the class body, which Python
evaluates exactly once, when the class object is created; hence every
default-constructed instance receives the class-definition timestamp
`classDefTime`.  The time `constructionTime` at which the constructor call
itself happens is taken as an argument only to make this explicit: it does
not flow into any field. -/
def Requirement.mk_default (classDefTime : Nat) (constructionTime : Nat)
    (id : String) (title : String) (description : String)
    (type : RequirementType) (priority : Int)
    (is_specific : Bool := false) (is_measurable : Bool := false)
    (is_achievable : Bool := false) (is_relevant : Bool := false)
    (is_time_bound : Bool := false) : Requirement :=
  { id := id
    title := title
    description := description
    type := type
    priority := priority
    is_specific := is_specific
    is_measurable := is_measurable
    is_achievable := is_achievable
    is_relevant := is_relevant
    is_time_bound := is_time_bound
    created_date := classDefTime
    last_modified := classDefTime
    verification_status := VerificationStatus.PENDING
    verification_notes := "" }

/-- Method `Requirement.validate` (lines 54–71): accumulates error messages
in a fixed order.  Python's `not s` on a string is the emptiness test. -/
def Requirement.validate (r : Requirement) : List String :=
  let validation_errors : List String := []
  let validation_errors :=
    if r.description = "" then
      validation_errors ++ ["La descripción no puede estar vacía"]
    else validation_errors
  let validation_errors :=
    if r.title = "" then
      validation_errors ++ ["El título no puede estar vacío"]
    else validation_errors
  let validation_errors :=
    if ¬ (1 ≤ r.priority ∧ r.priority ≤ 5) then
      validation_errors ++ ["La prioridad debe estar entre 1 y 5"]
    else validation_errors
  let validation_errors :=
    if ¬ (r.is_specific = true ∧ r.is_measurable = true ∧ r.is_achievable = true ∧
          r.is_relevant = true ∧ r.is_time_bound = true) then
      validation_errors ++ ["El requerimiento no cumple con todos los criterios SMART"]
    else validation_errors
  validation_errors

/-- Method `Requirement.is_valid` (lines 73–75): `len(self.validate()) == 0`. -/
def Requirement.is_valid (r : Requirement) : Bool :=
  r.validate.length == 0

/-- Method `Requirement.verify` (lines 77–85); `now` is the value
`datetime.now()` would return in the Verified branch. -/
def Requirement.verify (r : Requirement) (notes : String) (now : Nat) : Requirement :=
  if r.is_valid then
    { r with verification_status := VerificationStatus.VERIFIED
             verification_notes := notes
             last_modified := now }
  else
    { r with verification_status := VerificationStatus.REJECTED
             verification_notes :=
               "Errores de validación: " ++ String.intercalate (", ") r.validate }

/-- The `RequirementsDocument` class (lines 92–120). -/
structure RequirementsDocument where
  project_name : String
  requirements : List Requirement := []
  created_date : Nat
deriving DecidableEq

/-- Method `RequirementsDocument.add_requirement` (lines 99–101): appends. -/
def RequirementsDocument.add_requirement (doc : RequirementsDocument)
    (requirement : Requirement) : RequirementsDocument :=
  { doc with requirements := doc.requirements ++ [requirement] }

/-- Method `RequirementsDocument.get_requirements_by_type` (lines 103–105):
a list comprehension filtering on the `type` field. -/
def RequirementsDocument.get_requirements_by_type (doc : RequirementsDocument)
    (req_type : RequirementType) : List Requirement :=
  doc.requirements.filter (fun req => decide (req.type = req_type))

/-- The count `total_reqs` computed in `generate_report` (line 113). -/
def RequirementsDocument.total_reqs (doc : RequirementsDocument) : Nat :=
  doc.requirements.length

/-- The count `verified_reqs` computed in `generate_report` (line 114). -/
def RequirementsDocument.verified_reqs (doc : RequirementsDocument) : Nat :=
  (doc.requirements.filter
    (fun r => decide (r.verification_status = VerificationStatus.VERIFIED))).length

/-- The completion percentage computed in `generate_report` (line 118); the
source's float arithmetic is modelled exactly over ℚ. -/
def RequirementsDocument.completion_pct (doc : RequirementsDocument) : ℚ :=
  if doc.total_reqs > 0 then
    ((doc.verified_reqs : ℚ) / (doc.total_reqs : ℚ)) * 100
  else 0

/-- Method `RequirementsDocument.generate_report` (lines 107–120); `now` is
the report-generation timestamp printed on the second line. -/
def RequirementsDocument.generate_report (doc : RequirementsDocument)
    (now : Nat) : String :=
  let report := "Reporte de Requerimientos - " ++ doc.project_name ++ "\n"
  let report := report ++ "Fecha: " ++ toString now ++ "\n\n"
  let report := report ++ "Total de requerimientos: " ++ toString doc.total_reqs ++ "\n"
  let report := report ++ "Requerimientos verificados: " ++ toString doc.verified_reqs ++ "\n"
  let report := report ++ "Porcentaje de completitud: " ++ toString doc.completion_pct ++ "%\n"
  report

/-- A concrete fully valid requirement (the shape built in `main`). -/
def sampleValid : Requirement :=
  { id := "REQ-001"
    title := "Registro de Productos"
    description := "El sistema debe permitir registrar nuevos productos"
    type := RequirementType.FUNCTIONAL
    priority := 5
    is_specific := true
    is_measurable := true
    is_achievable := true
    is_relevant := true
    is_time_bound := true
    created_date := 3
    last_modified := 3
    verification_status := VerificationStatus.PENDING
    verification_notes := "" }

/-- A concrete invalid requirement: empty description and no SMART flags. -/
def sampleInvalid : Requirement :=
  { id := "REQ-002"
    title := "Registro"
    description := ""
    type := RequirementType.USER
    priority := 3
    created_date := 3
    last_modified := 3 }

/-- Helper: the validation errors as one ordered concatenation of the four
optional messages. -/
theorem validate_eq_concat (r : Requirement) :
    r.validate =
      (if r.description = "" then ["La descripción no puede estar vacía"] else []) ++
      (if r.title = "" then ["El título no puede estar vacío"] else []) ++
      (if 1 ≤ r.priority ∧ r.priority ≤ 5 then []
        else ["La prioridad debe estar entre 1 y 5"]) ++
      (if r.is_specific = true ∧ r.is_measurable = true ∧ r.is_achievable = true ∧
            r.is_relevant = true ∧ r.is_time_bound = true then []
        else ["El requerimiento no cumple con todos los criterios SMART"]) := by
  unfold Requirement.validate
  split_ifs <;> simp_all

/-- Helper: `is_valid` agrees with emptiness of `validate`. -/
theorem is_valid_eq_validate_nil (r : Requirement) :
    r.is_valid = true ↔ r.validate = [] := by
  unfold Requirement.is_valid
  simp [List.length_eq_zero]

/-- C1: `is_valid()` is true iff title and description are non-empty, the
priority lies in [1,5], and all five SMART flags hold; equivalently, iff
`validate()` returns the empty list. -/
theorem is_valid_iff_fields_and_validate_nil (r : Requirement) :
    (r.is_valid = true ↔
      (r.title ≠ "" ∧ r.description ≠ "" ∧ 1 ≤ r.priority ∧ r.priority ≤ 5 ∧
        r.is_specific = true ∧ r.is_measurable = true ∧ r.is_achievable = true ∧
        r.is_relevant = true ∧ r.is_time_bound = true)) ∧
    (r.is_valid = true ↔ r.validate = []) := by
  refine ⟨?_, is_valid_eq_validate_nil r⟩
  rw [is_valid_eq_validate_nil, validate_eq_concat]
  split_ifs <;> simp_all

/-- C2 counterexample: on a concrete requirement with an empty description,
`validate()` is non-empty but none of its messages is the claimed English
string "description must not be empty" — the source's messages are the
Spanish strings. -/
theorem validate_message_counterexample :
    sampleInvalid.description = "" ∧
    sampleInvalid.validate ≠ [] ∧
    ¬ ("description must not be empty" ∈ sampleInvalid.validate) := by
  refine ⟨rfl, ?_, ?_⟩ <;> decide

/-- C2 (amended): `validate()` returns its error messages in the fixed
order description, title, priority, SMART, each check contributing its
single fixed (Spanish) message, the SMART check contributing one combined
message; the result is empty exactly when the requirement is fully valid,
and, being a pure function of the fields, repeated calls yield identical
results. -/
theorem validate_ordered_messages (r : Requirement) :
    r.validate =
      (if r.description = "" then ["La descripción no puede estar vacía"] else []) ++
      (if r.title = "" then ["El título no puede estar vacío"] else []) ++
      (if 1 ≤ r.priority ∧ r.priority ≤ 5 then []
        else ["La prioridad debe estar entre 1 y 5"]) ++
      (if r.is_specific = true ∧ r.is_measurable = true ∧ r.is_achievable = true ∧
            r.is_relevant = true ∧ r.is_time_bound = true then []
        else ["El requerimiento no cumple con todos los criterios SMART"]) ∧
    (r.validate = [] ↔ r.is_valid = true) := by
  exact ⟨validate_eq_concat r, (is_valid_eq_validate_nil r).symm⟩

/-- C3: on a valid requirement, `verify(notes)` sets the status to
Verified, stores exactly the caller-supplied notes, and sets
`last_modified` to the current time, which is ≥ its previous value
whenever the clock has not gone backwards. -/
theorem verify_valid_sets_status_notes_time (r : Requirement) (notes : String)
    (now : Nat) (hv : r.is_valid = true) (hm : r.last_modified ≤ now) :
    (r.verify notes now).verification_status = VerificationStatus.VERIFIED ∧
    (r.verify notes now).verification_notes = notes ∧
    (r.verify notes now).last_modified = now ∧
    r.last_modified ≤ (r.verify notes now).last_modified := by
  unfold Requirement.verify
  rw [hv]
  exact ⟨rfl, rfl, rfl, hm⟩

/-- C3 witness: the theorem applied to the concrete valid requirement. -/
theorem verify_valid_witness :
    sampleValid.is_valid = true ∧ sampleValid.last_modified ≤ 7 ∧
    ((sampleValid.verify ("aprobado") 7).verification_status =
        VerificationStatus.VERIFIED ∧
      (sampleValid.verify ("aprobado") 7).verification_notes = "aprobado" ∧
      (sampleValid.verify ("aprobado") 7).last_modified = 7 ∧
      sampleValid.last_modified ≤ (sampleValid.verify ("aprobado") 7).last_modified) :=
  ⟨by decide, by decide,
    verify_valid_sets_status_notes_time sampleValid ("aprobado") 7
      (by decide) (by decide)⟩

/-- C4 counterexample: on a concrete invalid requirement the generated
notes start with the Spanish prefix "Errores de validación: ", not with
the claimed English prefix "validation errors: ". -/
theorem verify_invalid_notes_counterexample :
    sampleInvalid.is_valid = false ∧
    (sampleInvalid.verify ("nota") 7).verification_notes =
      "Errores de validación: La descripción no puede estar vacía, " ++
        "El requerimiento no cumple con todos los criterios SMART" ∧
    (sampleInvalid.verify ("nota") 7).verification_notes ≠
      "validation errors: " ++ String.intercalate (", ") sampleInvalid.validate := by
  refine ⟨by decide, by decide, by decide⟩

/-- C4 (amended): on an invalid requirement, `verify(notes)` sets the
status to Rejected, sets the notes to the generated string
"Errores de validación: " followed by the validation errors joined by
", ", discards the caller-supplied notes, and leaves `last_modified`
unchanged; the operation is a total function. -/
theorem verify_invalid_sets_rejected (r : Requirement) (notes : String)
    (now : Nat) (hv : r.is_valid = false) :
    (r.verify notes now).verification_status = VerificationStatus.REJECTED ∧
    (r.verify notes now).verification_notes =
      "Errores de validación: " ++ String.intercalate (", ") r.validate ∧
    (r.verify notes now).last_modified = r.last_modified := by
  unfold Requirement.verify
  rw [hv]
  exact ⟨rfl, rfl, rfl⟩

/-- C4 witness: the amended theorem applied to the concrete invalid
requirement. -/
theorem verify_invalid_witness :
    sampleInvalid.is_valid = false ∧
    ((sampleInvalid.verify ("nota") 9).verification_status =
        VerificationStatus.REJECTED ∧
      (sampleInvalid.verify ("nota") 9).verification_notes =
        "Errores de validación: " ++ String.intercalate (", ") sampleInvalid.validate ∧
      (sampleInvalid.verify ("nota") 9).last_modified = sampleInvalid.last_modified) :=
  ⟨by decide, verify_invalid_sets_rejected sampleInvalid ("nota") 9 (by decide)⟩

/-- A concrete document holding one valid and one invalid requirement. -/
def sampleDocTwo : RequirementsDocument :=
  { project_name := "Sistema de Gestión de Inventario"
    requirements := [sampleValid, sampleInvalid]
    created_date := 0 }

/-- A concrete empty document. -/
def sampleDocEmpty : RequirementsDocument :=
  { project_name := "Sistema de Gestión de Inventario"
    requirements := []
    created_date := 0 }

/-- C5: the verification-status state machine: a default-constructed
requirement starts Pending; `verify()` moves any requirement, whatever its
current status, to Verified exactly when it is valid and to Rejected
exactly when it is not; and the document operations do not touch stored
requirements — `add_requirement` only appends, and
`get_requirements_by_type` returns a sublist of the stored records
unchanged. -/
theorem verification_status_state_machine
    (cdt ct : Nat) (i ti d : String) (ty : RequirementType) (p : Int)
    (r q : Requirement) (notes : String) (now : Nat)
    (doc : RequirementsDocument) (t : RequirementType) :
    (Requirement.mk_default cdt ct i ti d ty p).verification_status =
      VerificationStatus.PENDING ∧
    (r.verify notes now).verification_status =
      (if r.is_valid then VerificationStatus.VERIFIED
        else VerificationStatus.REJECTED) ∧
    (doc.add_requirement q).requirements = doc.requirements ++ [q] ∧
    List.Sublist (doc.get_requirements_by_type t) doc.requirements := by
  refine ⟨rfl, ?_, rfl, List.filter_sublist doc.requirements⟩
  unfold Requirement.verify
  split <;> rfl

/-- C6: the report's statistics: total is the number of stored
requirements, verified counts those with status Verified, the percentage
is (verified/total)·100 for a non-empty document and 0 for an empty one,
and the generated string embeds exactly these three values. -/
theorem generate_report_counts (doc : RequirementsDocument) (now : Nat) :
    doc.generate_report now =
      "Reporte de Requerimientos - " ++ doc.project_name ++ "\n" ++ "Fecha: " ++
        toString now ++ "\n\n" ++ "Total de requerimientos: " ++
        toString doc.total_reqs ++ "\n" ++ "Requerimientos verificados: " ++
        toString doc.verified_reqs ++ "\n" ++ "Porcentaje de completitud: " ++
        toString doc.completion_pct ++ "%\n" ∧
    doc.total_reqs = doc.requirements.length ∧
    doc.verified_reqs = List.countP
      (fun r => decide (r.verification_status = VerificationStatus.VERIFIED))
      doc.requirements ∧
    (0 < doc.total_reqs →
      doc.completion_pct = ((doc.verified_reqs : ℚ) / (doc.total_reqs : ℚ)) * 100) ∧
    (doc.total_reqs = 0 → doc.completion_pct = 0) ∧
    (doc.requirements = [] →
      doc.total_reqs = 0 ∧ doc.verified_reqs = 0 ∧ doc.completion_pct = 0) := by
  refine ⟨rfl, rfl, ?_, ?_, ?_, ?_⟩
  · rw [List.countP_eq_length_filter]
    rfl
  · intro h
    unfold RequirementsDocument.completion_pct
    rw [if_pos h]
  · intro h
    unfold RequirementsDocument.completion_pct
    rw [if_neg]
    omega
  · intro h
    unfold RequirementsDocument.completion_pct
      RequirementsDocument.total_reqs RequirementsDocument.verified_reqs
    rw [h]
    exact ⟨rfl, rfl, rfl⟩

/-- C6 witness: the empty-document case of the theorem at a concrete
empty document. -/
theorem generate_report_counts_witness :
    sampleDocEmpty.total_reqs = 0 ∧ sampleDocEmpty.verified_reqs = 0 ∧
    sampleDocEmpty.completion_pct = 0 :=
  (generate_report_counts sampleDocEmpty 5).2.2.2.2.2 rfl

/-- C7: `get_requirements_by_type` returns a sublist of the stored
requirements (hence in insertion order), containing a requirement exactly
when it is stored and has the requested type; it is empty when nothing
matches; and `add_requirement` appends at the end of the sequence. -/
theorem get_requirements_by_type_filter_spec (doc : RequirementsDocument)
    (t : RequirementType) (r q : Requirement) :
    List.Sublist (doc.get_requirements_by_type t) doc.requirements ∧
    (r ∈ doc.get_requirements_by_type t ↔ r ∈ doc.requirements ∧ r.type = t) ∧
    ((∀ s ∈ doc.requirements, s.type ≠ t) → doc.get_requirements_by_type t = []) ∧
    (doc.add_requirement q).requirements = doc.requirements ++ [q] := by
  refine ⟨List.filter_sublist doc.requirements, ?_, ?_, rfl⟩
  · simp [RequirementsDocument.get_requirements_by_type, List.mem_filter]
  · intro h
    simp only [RequirementsDocument.get_requirements_by_type, List.filter_eq_nil_iff]
    intro s hs
    simpa using h s hs

/-- C7 witness: the theorem at a concrete two-requirement document,
discharging the no-match hypothesis for a type not present. -/
theorem get_requirements_by_type_witness :
    sampleDocTwo.get_requirements_by_type RequirementType.BUSINESS = [] ∧
    (sampleValid ∈ sampleDocTwo.get_requirements_by_type RequirementType.FUNCTIONAL ↔
      sampleValid ∈ sampleDocTwo.requirements ∧
        sampleValid.type = RequirementType.FUNCTIONAL) :=
  ⟨(get_requirements_by_type_filter_spec sampleDocTwo RequirementType.BUSINESS
      sampleValid sampleValid).2.2.1 (by decide),
    (get_requirements_by_type_filter_spec sampleDocTwo RequirementType.FUNCTIONAL
      sampleValid sampleValid).2.1⟩

/-- C8: evaluation of the code at the failing input: two requirements
default-constructed at the distinct times 10 and 20 nevertheless carry the
same `created_date`, namely the class-definition timestamp, because the
dataclass default `datetime.now()` is evaluated once when the class is
defined, not per construction. -/
theorem created_date_independent_of_construction_time :
    (Requirement.mk_default 0 10 ("REQ-001") ("Registro") ("desc")
        RequirementType.FUNCTIONAL 5).created_date =
      (Requirement.mk_default 0 20 ("REQ-002") ("Listado") ("desc")
        RequirementType.USER 2).created_date ∧
    (10 : Nat) ≠ 20 :=
  ⟨rfl, by decide⟩

/-- C9: `validate`, `is_valid` and `verify` are total functions over all
field values: every message `validate` produces is one of the four fixed
messages, `is_valid` always yields a boolean, `verify` always yields a
status of Verified or Rejected, and invalid data routes to the Rejected
branch rather than to any failure. -/
theorem validate_verify_total_safety (r : Requirement) (notes : String)
    (now : Nat) :
    (∀ m ∈ r.validate, m ∈ ["La descripción no puede estar vacía",
      "El título no puede estar vacío", "La prioridad debe estar entre 1 y 5",
      "El requerimiento no cumple con todos los criterios SMART"]) ∧
    (r.is_valid = true ∨ r.is_valid = false) ∧
    ((r.verify notes now).verification_status = VerificationStatus.VERIFIED ∨
      (r.verify notes now).verification_status = VerificationStatus.REJECTED) ∧
    (r.is_valid = false →
      (r.verify notes now).verification_status = VerificationStatus.REJECTED) := by
  refine ⟨?_, ?_, ?_, ?_⟩
  · rw [validate_eq_concat]
    intro m hm
    split_ifs at hm <;> simp_all <;> tauto
  · cases r.is_valid <;> simp
  · cases h : r.is_valid <;> simp [Requirement.verify, h]
  · intro h
    simp [Requirement.verify, h]

/-- C9 witness: the Rejected-branch implication discharged at the concrete
invalid requirement. -/
theorem total_safety_witness :
    (sampleInvalid.verify ("x") 0).verification_status =
      VerificationStatus.REJECTED :=
  (validate_verify_total_safety sampleInvalid ("x") 0).2.2.2 (by decide)

/-- C10: `verify` leaves `id`, `title`, `description`, `type`, `priority`,
the five SMART flags and `created_date` unchanged in both branches. -/
theorem verify_frame_condition (r : Requirement) (notes : String) (now : Nat) :
    (r.verify notes now).id = r.id ∧
    (r.verify notes now).title = r.title ∧
    (r.verify notes now).description = r.description ∧
    (r.verify notes now).type = r.type ∧
    (r.verify notes now).priority = r.priority ∧
    (r.verify notes now).is_specific = r.is_specific ∧
    (r.verify notes now).is_measurable = r.is_measurable ∧
    (r.verify notes now).is_achievable = r.is_achievable ∧
    (r.verify notes now).is_relevant = r.is_relevant ∧
    (r.verify notes now).is_time_bound = r.is_time_bound ∧
    (r.verify notes now).created_date = r.created_date := by
  cases h : r.is_valid <;> simp [Requirement.verify, h]

end Desarrollo
